import Mathlib

/-!
Shallow embedding of `src/MasterShaderNodeGen.py`, a Blender script that
serializes shader node graphs to JSON, together with proofs of the frozen
claims about it.

Python dicts are modelled as ordered association lists (`Doc`), matching
Python's insertion-order semantics.  Python values that flow through the
exporter are modelled by the inductive type `HostVal`; host objects that the
script only probes through `__class__.__name__`, `getattr(-, "name", -)`,
`__len__` and `list(-)` are modelled by the `obj` constructor carrying
exactly those observations.  Raising Python code is modelled with `Option`
and `Except` at the points where the source catches (or propagates)
exceptions.  Floating-point payloads are opaque tokens (`Nat`): the script
never computes with numbers, it only moves them into the output document.
-/

/-- A Python value as seen by the exporter.  `none` is Python `None`;
`list` covers Python `list` and `tuple`; `dict` is a Python `dict` in
insertion order; `obj` is any other host object, carrying its
`__class__.__name__`, its `name` attribute when present, and its behaviour
under `list(-)`: `seq = Option.none` means the object has no `__len__`
attribute, `seq = some Option.none` means it has `__len__` but `list(-)`
raises, and `seq = some (some items)` means `list(-)` returns `items`. -/
inductive HostVal where
  | none
  | bool (b : Bool)
  | int (i : Int)
  | float (f : Nat)
  | str (s : String)
  | list (items : List HostVal)
  | dict (entries : List (String × HostVal))
  | obj (cls : String) (oname : Option String) (seq : Option (Option (List HostVal)))

/-- A serialized JSON-object document: a Python dict in insertion order. -/
abbrev Doc := List (String × HostVal)

/-- `val.__class__.__name__` for the embedded values. -/
def className : HostVal → String
  | HostVal.none => "NoneType"
  | HostVal.bool _ => "bool"
  | HostVal.int _ => "int"
  | HostVal.float _ => "float"
  | HostVal.str _ => "str"
  | HostVal.list _ => "list"
  | HostVal.dict _ => "dict"
  | HostVal.obj cls _ _ => cls

/-- `getattr(val, "name")` when the attribute exists: only host objects
carry a `name` attribute in this model. -/
def refName : HostVal → Option String
  | HostVal.obj _ oname _ => oname
  | _ => Option.none

/-- `hasattr(val, "__len__")`: strings, lists, tuples and dicts always have a
length; a host object has one exactly when its `seq` field says so. -/
def hasLen : HostVal → Bool
  | HostVal.str _ => true
  | HostVal.list _ => true
  | HostVal.dict _ => true
  | HostVal.obj _ _ seq => seq.isSome
  | _ => false

/-- `isinstance(val, str)`. -/
def isStr : HostVal → Bool
  | HostVal.str _ => true
  | _ => false

/-- `isinstance(val, (bool, int, float, str))`. -/
def isPyScalar : HostVal → Bool
  | HostVal.bool _ => true
  | HostVal.int _ => true
  | HostVal.float _ => true
  | HostVal.str _ => true
  | _ => false

/-- `list(val)`: `Option.none` when the call raises.  A string converts to
its characters, a dict to its keys, a list or tuple to its items, a host
object to whatever its sequence protocol yields; `list(-)` on a scalar or
`None` raises `TypeError`. -/
def listConv : HostVal → Option (List HostVal)
  | HostVal.str s => some (s.toList.map (fun c => HostVal.str c.toString))
  | HostVal.list items => some items
  | HostVal.dict entries => some (entries.map (fun kv => HostVal.str kv.1))
  | HostVal.obj _ _ (some conv) => conv
  | HostVal.obj _ _ Option.none => Option.none
  | _ => Option.none

mutual
/-- `is_json_serializable` (lines 36-43): `None` and scalars are safe, lists
and tuples are safe when all items are, dicts when all values are, anything
else is not. -/
def is_json_serializable : HostVal → Bool
  | HostVal.none => true
  | HostVal.bool _ => true
  | HostVal.int _ => true
  | HostVal.float _ => true
  | HostVal.str _ => true
  | HostVal.list items => jsonAllItems items
  | HostVal.dict entries => jsonAllValues entries
  | HostVal.obj _ _ _ => false

/-- `all(is_json_serializable(item) for item in val)` over a list's items. -/
def jsonAllItems : List HostVal → Bool
  | [] => true
  | x :: xs => is_json_serializable x && jsonAllItems xs

/-- `all(is_json_serializable(v) for v in val.values())` over a dict. -/
def jsonAllValues : List (String × HostVal) → Bool
  | [] => true
  | kv :: kvs => is_json_serializable kv.2 && jsonAllValues kvs
end

/-- A node socket as the exporter reads it.  `default_value = Option.none`
models a socket without a `default_value` attribute.  `links` carries, per
connection, the peer node's `name` and the peer socket's `name` (for an
input socket these are `link.from_node.name` and `link.from_socket.name`,
for an output socket `link.to_node.name` and `link.to_socket.name`). -/
structure Socket where
  name : String
  identifier : String
  type : String
  default_value : Option HostVal
  enabled : Bool
  hide : Bool
  hide_value : Bool
  is_linked : Bool
  links : List (String × String)

/-- The reference classes checked at lines 14-21 of
`get_socket_default_value`. -/
def socketRefClasses : List String :=
  ["Image", "Object", "Collection", "Material", "Texture", "NodeTree"]

/-- `get_socket_default_value` (lines 5-33): missing attribute or `None`
gives `None`; a value of a reference class gives the placeholder string
`<Cls: name>` with `"unnamed"` standing in for a missing `name` attribute;
a non-string value with `__len__` gives `list(val)` (or `None` when that
raises); a scalar passes through; anything else gives `None`. -/
def get_socket_default_value (socket : Socket) : HostVal :=
  match socket.default_value with
  | Option.none => HostVal.none
  | some HostVal.none => HostVal.none
  | some val =>
    if socketRefClasses.contains (className val) then
      HostVal.str ("<" ++ className val ++ ": " ++ (refName val).getD "unnamed" ++ ">")
    else if hasLen val && !isStr val then
      match listConv val with
      | some l => HostVal.list l
      | Option.none => HostVal.none
    else if isPyScalar val then val
    else HostVal.none

/-- The reference classes checked at lines 57-66 of `get_property_info`. -/
def propRefClasses : List String :=
  ["CurveMapping", "ColorMapping", "Image", "NodeTree", "Object", "Collection",
   "Material", "Texture"]

/-- The value-normalisation chain of `get_property_info` (lines 57-80),
applied to a successfully read `current_val`: a reference-class value gives
the bare placeholder `<Cls>`; a non-string value with `__len__` gives
`list(val)` if that succeeds and the result is JSON-serializable, else
`None`; otherwise the value itself if JSON-serializable, else `None`. -/
def normalize_current_value (current_val : HostVal) : HostVal :=
  if propRefClasses.contains (className current_val) then
    HostVal.str ("<" ++ className current_val ++ ">")
  else if hasLen current_val && !isStr current_val then
    match listConv current_val with
    | some val_list =>
      if is_json_serializable (HostVal.list val_list) then HostVal.list val_list
      else HostVal.none
    | Option.none => HostVal.none
  else if is_json_serializable current_val then current_val
  else HostVal.none

/-- An RNA property descriptor as `get_property_info` reads it.
`array_length`, `hard_min` and `hard_max` are `Option.none` when the
descriptor lacks that attribute.  `raise_msg = some e` models a descriptor
one of whose unguarded metadata reads (lines 47-52 and 84-93) raises with
message `e`; the source does not catch that inside `get_property_info`, so
the whole call raises and the caller decides (skip silently at lines
170-173, log and skip at lines 325-330). -/
structure PropDesc where
  identifier : String
  name : String
  type : String
  description : String
  enum_items : List String
  array_length : Option Nat
  hard_min : Option HostVal
  hard_max : Option HostVal
  raise_msg : Option String

/-- Color-ramp stop (`node.color_ramp.elements[i]`); `color` is already the
`list(elem.color)` conversion. -/
structure RampElement where
  position : HostVal
  color : List HostVal
  alpha : HostVal

/-- `node.color_ramp`. -/
structure RampData where
  color_mode : String
  hue_interpolation : String
  interpolation : String
  elements : List RampElement

/-- One control point of an RGB-curve channel; `location` is already the
`list(point.location)` conversion. -/
structure CurvePoint where
  location : List HostVal
  handle_type : String

/-- One channel of `node.mapping.curves`. -/
structure CurveChannel where
  points : List CurvePoint

/-- `node.image` of an image-texture node; `size` is already the
`list(node.image.size)` conversion. -/
structure ImageData where
  name : String
  filepath : String
  size : List HostVal
  colorspace_name : String

/-- A shader node as the exporter reads it.  `location`, `width` and
`height` carry host floats.  `base_props` has one entry per base class of
`type(node)`: `Option.none` when the base has no `bl_rna`, otherwise the
identifiers of the base's RNA properties.  `rna_props` is
`node.bl_rna.properties`.  `attrs` models `getattr(node, ident)`: a key
that is absent or mapped to `Option.none` is a read that raises.  The
`color_ramp`, `curves` and `image` fields carry the type-specific state
read at lines 175-209; only the branch matching `node.type` is ever
consulted. -/
structure Node where
  name : String
  bl_idname : String
  type : String
  bl_label : String
  label : String
  location : List HostVal
  width : HostVal
  height : HostVal
  hide : Bool
  mute : Bool
  inputs : List Socket
  outputs : List Socket
  base_props : List (Option (List String))
  rna_props : List PropDesc
  attrs : List (String × Option HostVal)
  color_ramp : RampData
  curves : List CurveChannel
  image : Option ImageData

/-- Python dict lookup `d[k]` / `d.get(k)` on the association-list model. -/
def dictGet : Doc → String → Option HostVal
  | [], _ => Option.none
  | (k, v) :: kvs, key => if k = key then some v else dictGet kvs key

/-- Python dict assignment `d[k] = v`: update in place when the key exists,
otherwise append. -/
def dictSet : Doc → String → HostVal → Doc
  | [], key, v => [(key, v)]
  | (k, w) :: kvs, key, v =>
    if k = key then (key, v) :: kvs else (k, w) :: dictSet kvs key v

/-- `getattr(node, ident)`: `some v` on a successful read, `Option.none`
when the read raises. -/
def lookupAttr (node : Node) (ident : String) : Option HostVal :=
  match node.attrs.find? (fun kv => kv.1 == ident) with
  | some (_, some v) => some v
  | _ => Option.none

/-- `get_property_info` (lines 46-95): assembles the PropertyDocument.
The descriptor dict starts with identifier/name/type/description, gains a
`current_value` (the normalised `getattr` result, `None` when the read
raises), then `enum_items` for `ENUM` properties, and `array_length`,
`min`, `max` for `FLOAT`/`INT` properties when present.  A raising
metadata read makes the whole call raise (`Except.error`). -/
def get_property_info (node : Node) (prop : PropDesc) : Except String Doc :=
  match prop.raise_msg with
  | some e => Except.error e
  | Option.none =>
    let current_value : HostVal :=
      match lookupAttr node prop.identifier with
      | some current_val => normalize_current_value current_val
      | Option.none => HostVal.none
    let enum_part : Doc :=
      if prop.type = "ENUM" then
        [("enum_items", HostVal.list (prop.enum_items.map HostVal.str))]
      else []
    let arr_part : Doc :=
      if prop.type = "FLOAT" || prop.type = "INT" then
        match prop.array_length with
        | some n =>
          if 0 < n then [("array_length", HostVal.int (Int.ofNat n))] else []
        | Option.none => []
      else []
    let min_part : Doc :=
      if prop.type = "FLOAT" || prop.type = "INT" then
        match prop.hard_min with
        | some v => [("min", v)]
        | Option.none => []
      else []
    let max_part : Doc :=
      if prop.type = "FLOAT" || prop.type = "INT" then
        match prop.hard_max with
        | some v => [("max", v)]
        | Option.none => []
      else []
    Except.ok
      ([("identifier", HostVal.str prop.identifier),
        ("name", HostVal.str prop.name),
        ("type", HostVal.str prop.type),
        ("description", HostVal.str prop.description),
        ("current_value", current_value)] ++
       enum_part ++ arr_part ++ min_part ++ max_part)

/-- The per-input-socket dict of `export_node_to_dict` (lines 114-136):
descriptive fields, then `is_linked`/`links` only when the socket reports
being linked; each link entry names `link.from_node.name` and
`link.from_socket.name`. -/
def input_socket_doc (inp : Socket) : Doc :=
  [("name", HostVal.str inp.name),
   ("identifier", HostVal.str inp.identifier),
   ("type", HostVal.str inp.type),
   ("default_value", get_socket_default_value inp),
   ("enabled", HostVal.bool inp.enabled),
   ("hide", HostVal.bool inp.hide),
   ("hide_value", HostVal.bool inp.hide_value)] ++
  (if inp.is_linked then
    [("is_linked", HostVal.bool true),
     ("links", HostVal.list (inp.links.map (fun l =>
       HostVal.dict [("from_node", HostVal.str l.1), ("from_socket", HostVal.str l.2)])))]
  else [])

/-- The per-output-socket dict of `export_node_to_dict` (lines 138-156):
as for inputs but without `hide_value`, and link entries name
`link.to_node.name` and `link.to_socket.name`. -/
def output_socket_doc (out : Socket) : Doc :=
  [("name", HostVal.str out.name),
   ("identifier", HostVal.str out.identifier),
   ("type", HostVal.str out.type),
   ("default_value", get_socket_default_value out),
   ("enabled", HostVal.bool out.enabled),
   ("hide", HostVal.bool out.hide)] ++
  (if out.is_linked then
    [("is_linked", HostVal.bool true),
     ("links", HostVal.list (out.links.map (fun l =>
       HostVal.dict [("to_node", HostVal.str l.1), ("to_socket", HostVal.str l.2)])))]
  else [])

/-- `parent_props` (lines 158-162 and 313-317): the identifiers collected
from every base class that has a `bl_rna`.  The source collects them into a
set used only for membership, so a flat list is an equivalent model. -/
def parentProps (bases : List (Option (List String))) : List String :=
  bases.foldl (fun acc b =>
    match b with
    | some ids => acc ++ ids
    | Option.none => acc) []

/-- The three identifiers always skipped (lines 167 and 322). -/
def skippedIdents : List String := ["rna_type", "dimensions", "internal_links"]

/-- One step of the property loop at lines 164-173: skip inherited and
always-skipped identifiers, store the PropertyDocument under its
identifier, and swallow a raising `get_property_info` (bare `except:
pass`). -/
def node_prop_step (node : Node) (acc : Doc) (prop : PropDesc) : Doc :=
  if (parentProps node.base_props).contains prop.identifier then acc
  else if skippedIdents.contains prop.identifier then acc
  else
    match get_property_info node prop with
    | Except.ok info => dictSet acc prop.identifier (HostVal.dict info)
    | Except.error _ => acc

/-- The `node_data["properties"]` dict of `export_node_to_dict`
(lines 164-173). -/
def node_properties_dict (node : Node) : Doc :=
  node.rna_props.foldl (node_prop_step node) []

/-- The type-specific extension block appended by `export_node_to_dict`
(lines 175-209): color-ramp data for `VALTORGB`, curve data for
`CURVE_RGB`, image data for `TEX_IMAGE` nodes that reference an image. -/
def node_extension (node : Node) : Doc :=
  if node.type = "VALTORGB" then
    [("color_ramp", HostVal.dict
      [("color_mode", HostVal.str node.color_ramp.color_mode),
       ("hue_interpolation", HostVal.str node.color_ramp.hue_interpolation),
       ("interpolation", HostVal.str node.color_ramp.interpolation),
       ("elements", HostVal.list (node.color_ramp.elements.map (fun elem =>
         HostVal.dict [("position", elem.position),
                       ("color", HostVal.list elem.color),
                       ("alpha", elem.alpha)])))])]
  else if node.type = "CURVE_RGB" then
    [("curves", HostVal.list (node.curves.map (fun curve =>
      HostVal.dict [("points", HostVal.list (curve.points.map (fun point =>
        HostVal.dict [("location", HostVal.list point.location),
                      ("handle_type", HostVal.str point.handle_type)])))])))]
  else if node.type = "TEX_IMAGE" then
    match node.image with
    | some img =>
      [("image", HostVal.dict
        [("name", HostVal.str img.name),
         ("filepath", HostVal.str img.filepath),
         ("size", HostVal.list img.size),
         ("colorspace_settings", HostVal.dict [("name", HostVal.str img.colorspace_name)])])]
    | Option.none => []
  else []

/-- `export_node_to_dict` (lines 98-211): the NodeDocument, with keys in
the source's insertion order and the type-specific extension appended
last. -/
def export_node_to_dict (node : Node) : Doc :=
  [("name", HostVal.str node.name),
   ("bl_idname", HostVal.str node.bl_idname),
   ("type", HostVal.str node.type),
   ("label", HostVal.str node.label),
   ("location", HostVal.list node.location),
   ("width", node.width),
   ("height", node.height),
   ("hide", HostVal.bool node.hide),
   ("mute", HostVal.bool node.mute),
   ("inputs", HostVal.list (node.inputs.map (fun inp => HostVal.dict (input_socket_doc inp)))),
   ("outputs", HostVal.list (node.outputs.map (fun out => HostVal.dict (output_socket_doc out)))),
   ("properties", HostVal.dict (node_properties_dict node))] ++
  node_extension node

/-- One edge of `node_tree.links` as the material exporter reads it
(lines 238-250). -/
structure MatLink where
  from_node : String
  from_socket : String
  from_socket_identifier : String
  to_node : String
  to_socket : String
  to_socket_identifier : String
  is_valid : Bool
  is_hidden : Bool

/-- A material of the host document. -/
structure Material where
  name : String
  use_nodes : Bool
  blend_method : String
  use_backface_culling : Bool
  nodes : List Node
  links : List MatLink

/-- One entry of `dir(bpy.types)` as the catalog generator probes it
(lines 271-276 and 284).  `new_node` is the combined behaviour of
`temp_tree.nodes.new(type=...)` and the subsequent reads of the fresh
node: `Except.error e` models a raise caught at lines 334-335. -/
structure BpyTypeEntry where
  attr_name : String
  is_node_subclass : Bool
  is_registered : Bool
  new_node : Except String Node

/-- The host state the script reads and writes: `bpy.data.materials`,
`bpy.types` and `bpy.app.version`. -/
structure BpyData where
  materials : List Material
  bpy_types : List BpyTypeEntry
  version : List Nat

/-- `bpy.data.materials.get(material_name)`. -/
def materials_get (bpy : BpyData) (material_name : String) : Option Material :=
  bpy.materials.find? (fun m => m.name == material_name)

/-- Outcome of one `export_material_nodes_to_json` call: the returned
value, the file write (path and document) if one happened, and the console
messages in order. -/
structure ExportOut where
  result : Option Doc
  written : Option (String × Doc)
  log : List String

/-- `export_material_nodes_to_json` (lines 214-257): validate existence
and `use_nodes` (console message and `None` on failure), else assemble the
MaterialGraphDocument, optionally write it to `filepath`, and return it. -/
def export_material_nodes_to_json (bpy : BpyData) (material_name : String)
    (filepath : Option String) : ExportOut :=
  match materials_get bpy material_name with
  | Option.none =>
    { result := Option.none, written := Option.none,
      log := ["Material '" ++ material_name ++ "' not found"] }
  | some material =>
    if !material.use_nodes then
      { result := Option.none, written := Option.none,
        log := ["Material '" ++ material_name ++ "' doesn't use nodes"] }
    else
      let export_data : Doc :=
        [("material_name", HostVal.str material_name),
         ("blend_method", HostVal.str material.blend_method),
         ("use_backface_culling", HostVal.bool material.use_backface_culling),
         ("nodes", HostVal.list (material.nodes.map (fun node =>
           HostVal.dict (export_node_to_dict node)))),
         ("links", HostVal.list (material.links.map (fun link =>
           HostVal.dict
             [("from_node", HostVal.str link.from_node),
              ("from_socket", HostVal.str link.from_socket),
              ("from_socket_identifier", HostVal.str link.from_socket_identifier),
              ("to_node", HostVal.str link.to_node),
              ("to_socket", HostVal.str link.to_socket),
              ("to_socket_identifier", HostVal.str link.to_socket_identifier),
              ("is_valid", HostVal.bool link.is_valid),
              ("is_hidden", HostVal.bool link.is_hidden)])))]
      match filepath with
      | some fp =>
        { result := some export_data, written := some (fp, export_data),
          log := ["Exported material to " ++ fp] }
      | Option.none =>
        { result := some export_data, written := Option.none, log := [] }

/-- The per-input-socket dict of the catalog path (lines 296-303). -/
def catalog_input_doc (inp : Socket) : Doc :=
  [("name", HostVal.str inp.name),
   ("type", HostVal.str inp.type),
   ("identifier", HostVal.str inp.identifier),
   ("default_value", get_socket_default_value inp)]

/-- The per-output-socket dict of the catalog path (lines 305-311). -/
def catalog_output_doc (out : Socket) : Doc :=
  [("name", HostVal.str out.name),
   ("type", HostVal.str out.type),
   ("identifier", HostVal.str out.identifier)]

/-- One step of the catalog property loop (lines 319-330): like
`node_prop_step` but the PropertyDocuments go into a list and a raising
`get_property_info` is logged. -/
def catalog_prop_step (cls_name : String) (node : Node)
    (acc : List HostVal × List String) (prop : PropDesc) : List HostVal × List String :=
  if (parentProps node.base_props).contains prop.identifier then acc
  else if skippedIdents.contains prop.identifier then acc
  else
    match get_property_info node prop with
    | Except.ok info => (acc.1 ++ [HostVal.dict info], acc.2)
    | Except.error e =>
      (acc.1,
       acc.2 ++ ["Could not get property " ++ prop.identifier ++ " for " ++
         cls_name ++ ": " ++ e])

/-- The `node_info["properties"]` list of the catalog path together with
the console messages its failures produce (lines 319-330). -/
def catalog_properties (cls_name : String) (node : Node) : List HostVal × List String :=
  node.rna_props.foldl (catalog_prop_step cls_name node) ([], [])

/-- The `node_info` dict of the catalog path (lines 286-330), paired with
the console messages produced while building it. -/
def catalog_node_info (cls_name : String) (node : Node) : Doc × List String :=
  let props := catalog_properties cls_name node
  ([("bl_idname", HostVal.str cls_name),
    ("py_class_name", HostVal.str cls_name),
    ("name", HostVal.str node.bl_label),
    ("label", HostVal.str node.label),
    ("inputs", HostVal.list (node.inputs.map (fun inp => HostVal.dict (catalog_input_doc inp)))),
    ("outputs", HostVal.list (node.outputs.map (fun out => HostVal.dict (catalog_output_doc out)))),
    ("properties", HostVal.list props.1)], props.2)

/-- Python `s.startswith(pre)`, modelled on character lists. -/
def startswith (s pre : String) : Bool :=
  pre.toList.isPrefixOf s.toList

/-- The candidate discovery of lines 270-276: registered node subclasses of
`bpy.types` whose attribute name starts with `"ShaderNode"` (the source
tests the same characters twice; the disjunction is kept as written). -/
def shader_node_candidates (bpy : BpyData) : List BpyTypeEntry :=
  bpy.bpy_types.filter (fun e =>
    e.is_node_subclass &&
    (startswith e.attr_name "ShaderNode" || startswith e.attr_name "ShaderNode") &&
    e.is_registered)

/-- One step of the catalog walk (lines 280-335): clear the scratch tree,
instantiate the candidate, serialize it into `shader_nodes` under its class
name, and on a raise log "Could not process ..." and continue. -/
def catalog_step (acc : Doc × List String) (c : BpyTypeEntry) : Doc × List String :=
  match c.new_node with
  | Except.ok node =>
    let info := catalog_node_info c.attr_name node
    (dictSet acc.1 c.attr_name (HostVal.dict info.1), acc.2 ++ info.2)
  | Except.error e =>
    (acc.1, acc.2 ++ ["Could not process " ++ c.attr_name ++ ": " ++ e])

/-- The full catalog walk over the sorted candidates: the `shader_nodes`
dict and the console messages of the loop. -/
def catalog_scan (cands : List BpyTypeEntry) : Doc × List String :=
  cands.foldl catalog_step ([], [])

/-- `".".join(map(str, bpy.app.version))`. -/
def version_string (v : List Nat) : String :=
  String.intercalate "." (v.map toString)

/-- The candidates in the order the catalog walks them: Python's `sorted`
by class name (line 280), a stable sort modelled by `List.insertionSort`. -/
def sorted_candidates (bpy : BpyData) : List BpyTypeEntry :=
  (shader_node_candidates bpy).insertionSort (fun a b => a.attr_name ≤ b.attr_name)

/-- Outcome of one `generate_master_shader_nodes_json` call: the host state
after the call (the scratch material created and removed), the returned
document, the file write if one happened, and the console messages. -/
structure GenOut where
  bpy : BpyData
  result : Doc
  written : Option (String × Doc)
  log : List String

/-- The scratch material of line 266. -/
def temp_material : Material :=
  { name := "_temp_master_export", use_nodes := true, blend_method := "",
    use_backface_culling := false, nodes := [], links := [] }

/-- `generate_master_shader_nodes_json` (lines 260-345): create the scratch
material, discover and sort the shader-node candidates (Python `sorted` is
stable; `List.insertionSort` is the stable sort used to model it), walk
them with `catalog_scan`, remove the scratch material (modelled as erasing
the element appended at creation), and optionally write the master
document. -/
def generate_master_shader_nodes_json (bpy : BpyData) (filepath : Option String) : GenOut :=
  let materials1 := bpy.materials ++ [temp_material]
  let cands := shader_node_candidates bpy
  let scan := catalog_scan (sorted_candidates bpy)
  let master_data : Doc :=
    [("blender_version", HostVal.str (version_string bpy.version)),
     ("shader_nodes", HostVal.dict scan.1)]
  let materials2 := materials1.eraseIdx bpy.materials.length
  let log1 := ["Found " ++ toString cands.length ++ " shader node types"] ++ scan.2
  match filepath with
  | some fp =>
    { bpy := { bpy with materials := materials2 }, result := master_data,
      written := some (fp, master_data),
      log := log1 ++ ["Master shader nodes exported to " ++ fp,
        "Total nodes exported: " ++ toString scan.1.length] }
  | Option.none =>
    { bpy := { bpy with materials := materials2 }, result := master_data,
      written := Option.none, log := log1 }

/-- A JSON primitive in the normalizers' output range: boolean, number or
string (placeholder strings included). -/
def isJsonPrim : HostVal → Bool
  | HostVal.bool _ => true
  | HostVal.int _ => true
  | HostVal.float _ => true
  | HostVal.str _ => true
  | _ => false

/-- A value already in the Value Normalizer's output range: null, a JSON
primitive, or a list of JSON primitives.  Placeholder strings are strings
and hence JSON primitives. -/
def NormalForm (v : HostVal) : Prop :=
  v = HostVal.none ∨ isJsonPrim v = true ∨
    ∃ l, v = HostVal.list l ∧ ∀ x ∈ l, isJsonPrim x = true

/-- Whether a candidate's instantiation-and-serialization succeeds. -/
def candidate_ok (c : BpyTypeEntry) : Bool :=
  match c.new_node with
  | Except.ok _ => true
  | Except.error _ => false

/-- Fixture: a plain unconnected socket without a `default_value`
attribute. -/
def sampleSocket : Socket :=
  { name := "Color", identifier := "Color", type := "RGBA",
    default_value := Option.none, enabled := true, hide := false,
    hide_value := false, is_linked := false, links := [] }

/-- Fixture: a socket whose default is a sequence containing a
non-JSON-safe host object. -/
def sockSeqUnsafe : Socket :=
  { sampleSocket with
    default_value := some (HostVal.list [HostVal.obj "Foo" Option.none Option.none]) }

/-- Fixture: a socket whose default is a reference-class object without a
`name` attribute. -/
def sockRefUnnamed : Socket :=
  { sampleSocket with
    default_value := some (HostVal.obj "Image" Option.none Option.none) }

/-- Fixture: a socket whose default is a two-element float sequence. -/
def sockFloats : Socket :=
  { sampleSocket with
    default_value := some (HostVal.list [HostVal.float 1, HostVal.float 2]) }

/-- Fixture: an empty color ramp. -/
def sampleRamp : RampData :=
  { color_mode := "RGB", hue_interpolation := "NEAR",
    interpolation := "LINEAR", elements := [] }

/-- Fixture: a minimal node. -/
def baseNode : Node :=
  { name := "N", bl_idname := "ShaderNodeValue", type := "VALUE",
    bl_label := "Value", label := "", location := [], width := HostVal.float 0,
    height := HostVal.float 0, hide := false, mute := false, inputs := [],
    outputs := [], base_props := [], rna_props := [], attrs := [],
    color_ramp := sampleRamp, curves := [], image := Option.none }

/-- Fixture: a readable boolean property descriptor. -/
def propOk : PropDesc :=
  { identifier := "my_prop", name := "My Prop", type := "BOOLEAN",
    description := "", enum_items := [], array_length := Option.none,
    hard_min := Option.none, hard_max := Option.none, raise_msg := Option.none }

/-- Fixture: a property descriptor whose metadata read raises. -/
def propBad : PropDesc :=
  { propOk with identifier := "bad_prop", raise_msg := some "boom" }

/-- Fixture: a host state with no materials and no registered types. -/
def bpyEmpty : BpyData := { materials := [], bpy_types := [], version := [] }

/-- Fixture: a registered shader-node type that instantiates fine. -/
def typeGood : BpyTypeEntry :=
  { attr_name := "ShaderNodeValue", is_node_subclass := true,
    is_registered := true, new_node := Except.ok baseNode }

/-- Fixture: a registered shader-node type whose instantiation raises. -/
def typeBad : BpyTypeEntry :=
  { attr_name := "ShaderNodeBroken", is_node_subclass := true,
    is_registered := true, new_node := Except.error "nope" }

/-- Fixture: a host state with two shader-node candidates, one of which
fails to instantiate, listed out of name order. -/
def bpySample : BpyData :=
  { materials := [], bpy_types := [typeGood, typeBad], version := [4, 2, 0] }

/-- Fixture: a material that does not use nodes. -/
def matNoNodes : Material :=
  { name := "Flat", use_nodes := false, blend_method := "OPAQUE",
    use_backface_culling := false, nodes := [], links := [] }

/-- Fixture: a node-based material with no nodes or links. -/
def matNodes : Material :=
  { name := "Shiny", use_nodes := true, blend_method := "OPAQUE",
    use_backface_culling := false, nodes := [], links := [] }

/-- Fixture: a host state holding the two fixture materials. -/
def bpyMat : BpyData :=
  { materials := [matNoNodes, matNodes], bpy_types := [], version := [4, 2, 0] }

/-- Fixture: a node with one inherited identifier, one own readable
property. -/
def nodeW : Node :=
  { baseNode with
    base_props := [some ["base_prop"]], rna_props := [propOk],
    attrs := [("my_prop", some (HostVal.bool true))] }

/-- Fixture: a node with one readable property followed by one whose
metadata read raises. -/
def nodeBad : Node :=
  { baseNode with
    rna_props := [propOk, propBad],
    attrs := [("my_prop", some (HostVal.bool true))] }

lemma eraseIdx_append_singleton {α : Type} : ∀ (l : List α) (a : α),
    (l ++ [a]).eraseIdx l.length = l
  | [], _ => rfl
  | x :: xs, a => congrArg (x :: ·) (eraseIdx_append_singleton xs a)

/-- C5: when the named material is missing, or present but not node-based,
the exporter reports a console message and returns no document (and, being
a total function of the host state in this model, does not raise). -/
theorem claim5_invalid_material_reports_and_returns_nothing (bpy : BpyData)
    (material_name : String) (filepath : Option String) :
    (materials_get bpy material_name = Option.none →
      export_material_nodes_to_json bpy material_name filepath =
        { result := Option.none, written := Option.none,
          log := ["Material '" ++ material_name ++ "' not found"] }) ∧
    (∀ m, materials_get bpy material_name = some m → m.use_nodes = false →
      export_material_nodes_to_json bpy material_name filepath =
        { result := Option.none, written := Option.none,
          log := ["Material '" ++ material_name ++ "' doesn't use nodes"] }) := by
  constructor
  · intro h
    simp [export_material_nodes_to_json, h]
  · intro m hm hn
    simp [export_material_nodes_to_json, hm, hn]

/-- Witness for C5 at a concrete host state: a missing material and a
material without nodes. -/
theorem claim5_witness :
    (materials_get bpyMat "Missing" = Option.none ∧
      export_material_nodes_to_json bpyMat "Missing" Option.none =
        { result := Option.none, written := Option.none,
          log := ["Material '" ++ "Missing" ++ "' not found"] }) ∧
    (materials_get bpyMat "Flat" = some matNoNodes ∧
      export_material_nodes_to_json bpyMat "Flat" Option.none =
        { result := Option.none, written := Option.none,
          log := ["Material '" ++ "Flat" ++ "' doesn't use nodes"] }) :=
  ⟨⟨rfl, (claim5_invalid_material_reports_and_returns_nothing bpyMat "Missing" Option.none).1 rfl⟩,
   ⟨rfl, (claim5_invalid_material_reports_and_returns_nothing bpyMat "Flat" Option.none).2
      matNoNodes rfl rfl⟩⟩

/-- C10: with an output filepath supplied, a failed validation (missing
material or material without nodes) writes no file. -/
theorem claim10_no_file_written_on_failed_validation (bpy : BpyData)
    (material_name fp : String)
    (hbad : materials_get bpy material_name = Option.none ∨
      ∃ m, materials_get bpy material_name = some m ∧ m.use_nodes = false) :
    (export_material_nodes_to_json bpy material_name (some fp)).written =
      Option.none := by
  rcases hbad with h | ⟨m, hm, hn⟩
  · simp [export_material_nodes_to_json, h]
  · simp [export_material_nodes_to_json, hm, hn]

/-- Witness for C10 at a concrete host state and filepath. -/
theorem claim10_witness :
    (materials_get bpyMat "Missing" = Option.none ∨
      ∃ m, materials_get bpyMat "Missing" = some m ∧ m.use_nodes = false) ∧
    (export_material_nodes_to_json bpyMat "Missing" (some "/tmp/out.json")).written =
      Option.none :=
  ⟨Or.inl rfl,
   claim10_no_file_written_on_failed_validation bpyMat "Missing" "/tmp/out.json" (Or.inl rfl)⟩

/-- C7: the scratch material created at the start of catalog generation is
removed before the call returns, for every host state and filepath, so the
host's material list is unchanged afterwards. -/
theorem claim7_scratch_material_removed (bpy : BpyData) (filepath : Option String) :
    (generate_master_shader_nodes_json bpy filepath).bpy.materials = bpy.materials := by
  cases filepath <;>
    simp [generate_master_shader_nodes_json, eraseIdx_append_singleton]

/-- Counterexample to C4: in the property path a reference with an
obtainable name still serializes as the bare `<TypeName>` (the claim
demands `<TypeName: itemName>`), and in the socket path a reference with
no obtainable name serializes as `<TypeName: unnamed>` (the claim demands
`<TypeName>`). -/
theorem claim4_counterexample :
    refName (HostVal.obj "Image" (some "img") Option.none) = some "img" ∧
    normalize_current_value (HostVal.obj "Image" (some "img") Option.none) =
      HostVal.str "<Image>" ∧
    HostVal.str "<Image>" ≠ HostVal.str "<Image: img>" ∧
    refName (HostVal.obj "Image" Option.none Option.none) = Option.none ∧
    get_socket_default_value sockRefUnnamed = HostVal.str "<Image: unnamed>" ∧
    HostVal.str "<Image: unnamed>" ≠ HostVal.str "<Image>" :=
  ⟨rfl, rfl, fun h => absurd (HostVal.str.inj h) (by decide),
   rfl, rfl, fun h => absurd (HostVal.str.inj h) (by decide)⟩

/-- C4 (amended): a reference-typed value is always replaced by a
placeholder string and its contents are never serialized; the socket path
produces `<TypeName: itemName>` with `unnamed` standing in for a missing
name, the property path always produces the bare `<TypeName>`. -/
theorem claim4_reference_placeholders :
    (∀ (s : Socket) (cls : String) (nm : Option String) sq,
      socketRefClasses.contains cls = true →
      s.default_value = some (HostVal.obj cls nm sq) →
      get_socket_default_value s =
        HostVal.str ("<" ++ cls ++ ": " ++ nm.getD "unnamed" ++ ">")) ∧
    (∀ (cls : String) (nm : Option String) sq,
      propRefClasses.contains cls = true →
      normalize_current_value (HostVal.obj cls nm sq) =
        HostVal.str ("<" ++ cls ++ ">")) := by
  constructor
  · intro s cls nm sq hcls hdv
    have hmem := List.mem_of_elem_eq_true hcls
    simp [get_socket_default_value, hdv, className, refName, hmem]
  · intro cls nm sq hcls
    have hmem := List.mem_of_elem_eq_true hcls
    simp [normalize_current_value, className, hmem]

/-- Witness for C4 (amended) at a named and an unnamed concrete
reference. -/
theorem claim4_witness :
    socketRefClasses.contains "Image" = true ∧
    ({ sampleSocket with
        default_value := some (HostVal.obj "Image" (some "img") Option.none) } :
          Socket).default_value =
      some (HostVal.obj "Image" (some "img") Option.none) ∧
    get_socket_default_value
        { sampleSocket with
          default_value := some (HostVal.obj "Image" (some "img") Option.none) } =
      HostVal.str ("<" ++ "Image" ++ ": " ++ (some "img").getD "unnamed" ++ ">") ∧
    propRefClasses.contains "CurveMapping" = true ∧
    normalize_current_value (HostVal.obj "CurveMapping" Option.none Option.none) =
      HostVal.str ("<" ++ "CurveMapping" ++ ">") :=
  ⟨rfl, rfl,
   claim4_reference_placeholders.1 _ "Image" (some "img") Option.none rfl rfl,
   rfl, claim4_reference_placeholders.2 "CurveMapping" Option.none Option.none rfl⟩

/-- Counterexample to C3: a socket default that is a sequence containing a
non-JSON-safe element is exported as that list, not collapsed to null as
the claim demands. -/
theorem claim3_counterexample :
    hasLen (HostVal.list [HostVal.obj "Foo" Option.none Option.none]) = true ∧
    isStr (HostVal.list [HostVal.obj "Foo" Option.none Option.none]) = false ∧
    is_json_serializable (HostVal.list [HostVal.obj "Foo" Option.none Option.none]) =
      false ∧
    get_socket_default_value sockSeqUnsafe =
      HostVal.list [HostVal.obj "Foo" Option.none Option.none] ∧
    get_socket_default_value sockSeqUnsafe ≠ HostVal.none :=
  ⟨rfl, rfl, rfl, rfl, fun h => HostVal.noConfusion h⟩

/-- C3 (amended): for a sequence-like non-text value that is not of a
reference class, the property path yields the converted element list,
collapsed to null when the conversion fails or any element is not
JSON-safe; the socket path yields the converted list whenever the
conversion succeeds — regardless of element JSON-safety — and null only
when the conversion fails. -/
theorem claim3_sequence_normalization (v : HostVal) (s : Socket)
    (hdv : s.default_value = some v)
    (hlen : hasLen v = true) (hstr : isStr v = false)
    (href1 : socketRefClasses.contains (className v) = false)
    (href2 : propRefClasses.contains (className v) = false) :
    get_socket_default_value s =
      (match listConv v with
       | some l => HostVal.list l
       | Option.none => HostVal.none) ∧
    normalize_current_value v =
      (match listConv v with
       | some l =>
         if is_json_serializable (HostVal.list l) then HostVal.list l
         else HostVal.none
       | Option.none => HostVal.none) := by
  constructor
  · cases v <;>
      simp_all [get_socket_default_value, hasLen, isStr, className]
  · cases v <;>
      simp_all [normalize_current_value, hasLen, isStr, className]

/-- Witness for C3 (amended) at a concrete two-element float sequence. -/
theorem claim3_witness :
    (sockFloats.default_value =
      some (HostVal.list [HostVal.float 1, HostVal.float 2])) ∧
    hasLen (HostVal.list [HostVal.float 1, HostVal.float 2]) = true ∧
    isStr (HostVal.list [HostVal.float 1, HostVal.float 2]) = false ∧
    get_socket_default_value sockFloats =
      (match listConv (HostVal.list [HostVal.float 1, HostVal.float 2]) with
       | some l => HostVal.list l
       | Option.none => HostVal.none) ∧
    normalize_current_value (HostVal.list [HostVal.float 1, HostVal.float 2]) =
      (match listConv (HostVal.list [HostVal.float 1, HostVal.float 2]) with
       | some l =>
         if is_json_serializable (HostVal.list l) then HostVal.list l
         else HostVal.none
       | Option.none => HostVal.none) :=
  ⟨rfl, rfl, rfl,
   (claim3_sequence_normalization (HostVal.list [HostVal.float 1, HostVal.float 2])
      sockFloats rfl rfl rfl rfl rfl).1,
   (claim3_sequence_normalization (HostVal.list [HostVal.float 1, HostVal.float 2])
      sockFloats rfl rfl rfl rfl rfl).2⟩

/-- C2: under the host invariant that `is_linked` reports whether the
socket has connections, a socket with zero connections gets no `links` key
in either socket document, and a socket with connections gets a `links`
list with exactly one entry per connection naming the peer node and peer
socket; the node serializer emits exactly these documents for its
`inputs`/`outputs` lists. -/
theorem claim2_socket_links_presence (s : Socket)
    (h : s.is_linked = true ↔ s.links ≠ []) :
    (s.links = [] →
      dictGet (input_socket_doc s) "links" = Option.none ∧
      dictGet (output_socket_doc s) "links" = Option.none) ∧
    (s.links ≠ [] →
      dictGet (input_socket_doc s) "links" =
        some (HostVal.list (s.links.map (fun l =>
          HostVal.dict [("from_node", HostVal.str l.1),
                        ("from_socket", HostVal.str l.2)]))) ∧
      dictGet (output_socket_doc s) "links" =
        some (HostVal.list (s.links.map (fun l =>
          HostVal.dict [("to_node", HostVal.str l.1),
                        ("to_socket", HostVal.str l.2)]))) ∧
      (s.links.map (fun l =>
        HostVal.dict [("from_node", HostVal.str l.1),
                      ("from_socket", HostVal.str l.2)])).length = s.links.length) ∧
    (∀ node : Node,
      dictGet (export_node_to_dict node) "inputs" =
        some (HostVal.list (node.inputs.map (fun inp =>
          HostVal.dict (input_socket_doc inp)))) ∧
      dictGet (export_node_to_dict node) "outputs" =
        some (HostVal.list (node.outputs.map (fun out =>
          HostVal.dict (output_socket_doc out))))) := by
  refine ⟨?_, ?_, ?_⟩
  · intro hnil
    have hl : s.is_linked = false := by
      cases hli : s.is_linked
      · rfl
      · exact absurd hnil (h.mp hli)
    constructor <;> simp [input_socket_doc, output_socket_doc, dictGet, hl]
  · intro hne
    have hl : s.is_linked = true := h.mpr hne
    refine ⟨?_, ?_, ?_⟩
    · simp [input_socket_doc, dictGet, hl]
    · simp [output_socket_doc, dictGet, hl]
    · exact List.length_map _ _
  · intro node
    constructor <;> simp [export_node_to_dict, dictGet]

/-- Witness for C2 at a concrete connected socket and a concrete
unconnected one (via the zero-link half applied to `sampleSocket`). -/
theorem claim2_witness :
    (({ sampleSocket with is_linked := true, links := [("NodeA", "Color")] } :
        Socket).is_linked = true ↔
      ({ sampleSocket with is_linked := true, links := [("NodeA", "Color")] } :
        Socket).links ≠ []) ∧
    dictGet (input_socket_doc
        { sampleSocket with is_linked := true, links := [("NodeA", "Color")] })
      "links" =
      some (HostVal.list [HostVal.dict
        [("from_node", HostVal.str "NodeA"), ("from_socket", HostVal.str "Color")]]) ∧
    dictGet (input_socket_doc sampleSocket) "links" = Option.none := by
  have hiff : ({ sampleSocket with is_linked := true, links := [("NodeA", "Color")] } :
      Socket).is_linked = true ↔
      ({ sampleSocket with is_linked := true, links := [("NodeA", "Color")] } :
        Socket).links ≠ [] := by simp [sampleSocket]
  have hiff0 : (sampleSocket.is_linked = true ↔ sampleSocket.links ≠ []) := by
    simp [sampleSocket]
  refine ⟨hiff, ?_, ?_⟩
  · exact ((claim2_socket_links_presence _ hiff).2.1 (by simp [sampleSocket])).1
  · exact ((claim2_socket_links_presence sampleSocket hiff0).1 rfl).1

lemma isJsonPrim_serializable (x : HostVal) (h : isJsonPrim x = true) :
    is_json_serializable x = true := by
  cases x <;> simp_all [isJsonPrim, is_json_serializable]

lemma jsonAllItems_of_prims (l : List HostVal)
    (h : ∀ x ∈ l, isJsonPrim x = true) : jsonAllItems l = true := by
  induction l with
  | nil => rfl
  | cons x xs ih =>
    simp [jsonAllItems, isJsonPrim_serializable x (h x (by simp)),
      ih (fun y hy => h y (by simp [hy]))]

/-- C9: both normalizers are idempotent on the output range: null, JSON
primitives (placeholder strings included) and lists of JSON primitives
come back unchanged from both the socket-default path and the
property-value path. -/
theorem claim9_normalizer_idempotent (v : HostVal) (hv : NormalForm v)
    (s : Socket) (hdv : s.default_value = some v) :
    get_socket_default_value s = v ∧ normalize_current_value v = v := by
  rcases hv with rfl | hprim | ⟨l, rfl, hl⟩
  · exact ⟨by simp [get_socket_default_value, hdv], rfl⟩
  · have hsock : get_socket_default_value s = v := by
      cases v <;> simp_all [isJsonPrim] <;>
        simp [get_socket_default_value, hdv, className, socketRefClasses, hasLen,
          isStr, isPyScalar]
    have hprop : normalize_current_value v = v := by
      cases v <;> simp_all [isJsonPrim] <;>
        simp [normalize_current_value, className, propRefClasses, hasLen, isStr,
          is_json_serializable]
    exact ⟨hsock, hprop⟩
  · have hjson : is_json_serializable (HostVal.list l) = true := by
      simp [is_json_serializable, jsonAllItems_of_prims l hl]
    constructor
    · simp [get_socket_default_value, hdv, className, socketRefClasses, hasLen,
        isStr, listConv]
    · simp [normalize_current_value, className, propRefClasses, hasLen, isStr,
        listConv, hjson]

/-- Witness for C9 at a concrete list of floats. -/
theorem claim9_witness :
    NormalForm (HostVal.list [HostVal.float 1, HostVal.float 2]) ∧
    get_socket_default_value sockFloats =
      HostVal.list [HostVal.float 1, HostVal.float 2] ∧
    normalize_current_value (HostVal.list [HostVal.float 1, HostVal.float 2]) =
      HostVal.list [HostVal.float 1, HostVal.float 2] := by
  have hnf : NormalForm (HostVal.list [HostVal.float 1, HostVal.float 2]) :=
    Or.inr (Or.inr ⟨[HostVal.float 1, HostVal.float 2], rfl, by decide⟩)
  exact ⟨hnf,
    (claim9_normalizer_idempotent _ hnf sockFloats rfl).1,
    (claim9_normalizer_idempotent _ hnf sockFloats rfl).2⟩

lemma not_mem_of_contains_eq_false {l : List String} {x : String}
    (h : l.contains x = false) : x ∉ l := by
  intro hm
  have ht : l.contains x = true := List.elem_iff.mpr hm
  rw [ht] at h
  exact Bool.true_eq_false.mp h

lemma mem_keys_dictSet : ∀ (d : Doc) (k x : String) (v : HostVal),
    x ∈ (dictSet d k v).map Prod.fst → x ∈ d.map Prod.fst ∨ x = k
  | [], k, x, v, hx => by
    simp [dictSet] at hx
    exact Or.inr hx
  | (k0, w) :: kvs, k, x, v, hx => by
    have hstep : dictSet ((k0, w) :: kvs) k v =
        if k0 = k then (k, v) :: kvs else (k0, w) :: dictSet kvs k v := rfl
    rw [hstep] at hx
    by_cases hk : k0 = k
    · rw [if_pos hk] at hx
      simp only [List.map_cons, List.mem_cons] at hx
      rcases hx with h1 | h2
      · exact Or.inr h1
      · exact Or.inl (by simp [h2])
    · rw [if_neg hk] at hx
      simp only [List.map_cons, List.mem_cons] at hx
      rcases hx with h1 | h2
      · exact Or.inl (by simp [h1])
      · rcases mem_keys_dictSet kvs k x v h2 with h | h
        · exact Or.inl (by simp [h])
        · exact Or.inr h

lemma mem_keys_node_props_foldl (node : Node) :
    ∀ (props : List PropDesc) (acc : Doc) (x : String),
      x ∈ ((props.foldl (node_prop_step node) acc).map Prod.fst) →
      x ∈ acc.map Prod.fst ∨
        ∃ p ∈ props, x = p.identifier ∧
          (∃ info, get_property_info node p = Except.ok info) ∧
          (parentProps node.base_props).contains p.identifier = false ∧
          skippedIdents.contains p.identifier = false
  | [], _, _, hx => Or.inl hx
  | p :: ps, acc, x, hx => by
    rcases mem_keys_node_props_foldl node ps (node_prop_step node acc p) x hx
      with h | ⟨q, hq, hrest⟩
    · unfold node_prop_step at h
      split at h
      next => exact Or.inl h
      next hA =>
        split at h
        next => exact Or.inl h
        next hB =>
          cases hgp : get_property_info node p with
          | ok info =>
            rw [hgp] at h
            rcases mem_keys_dictSet acc p.identifier x (HostVal.dict info) h
              with h2 | h3
            · exact Or.inl h2
            · exact Or.inr ⟨p, by simp, h3, ⟨info, hgp⟩, by simpa using hA,
                by simpa using hB⟩
          | error e =>
            rw [hgp] at h
            exact Or.inl h
    · exact Or.inr ⟨q, by simp [hq], hrest⟩

lemma mem_catalog_props_foldl (cls_name : String) (node : Node) :
    ∀ (props : List PropDesc) (acc : List HostVal × List String) (v : HostVal),
      v ∈ (props.foldl (catalog_prop_step cls_name node) acc).1 →
      v ∈ acc.1 ∨
        ∃ p ∈ props, ∃ info, get_property_info node p = Except.ok info ∧
          v = HostVal.dict info ∧
          (parentProps node.base_props).contains p.identifier = false ∧
          skippedIdents.contains p.identifier = false
  | [], _, _, hv => Or.inl hv
  | p :: ps, acc, v, hv => by
    rcases mem_catalog_props_foldl cls_name node ps (catalog_prop_step cls_name node acc p) v hv
      with h | ⟨q, hq, hrest⟩
    · unfold catalog_prop_step at h
      split at h
      next => exact Or.inl h
      next hA =>
        split at h
        next => exact Or.inl h
        next hB =>
          cases hgp : get_property_info node p with
          | ok info =>
            rw [hgp] at h
            simp only [List.mem_append, List.mem_singleton] at h
            rcases h with h2 | rfl
            · exact Or.inl h2
            · exact Or.inr ⟨p, by simp, info, hgp, rfl, by simpa using hA,
                by simpa using hB⟩
          | error e =>
            rw [hgp] at h
            exact Or.inl h
    · exact Or.inr ⟨q, by simp [hq], hrest⟩

lemma get_property_info_ok_head (node : Node) (p : PropDesc) (info : Doc)
    (h : get_property_info node p = Except.ok info) :
    dictGet info "identifier" = some (HostVal.str p.identifier) := by
  unfold get_property_info at h
  cases hmsg : p.raise_msg with
  | some e =>
    rw [hmsg] at h
    exact absurd h (by simp)
  | none =>
    rw [hmsg] at h
    have hinfo := Except.ok.inj h
    rw [← hinfo]
    simp [dictGet]

/-- C1: in both the material-export path and the catalog path, the
serialized property collection of a node holds no identifier declared on
the node's base type and none of `rna_type`, `dimensions`,
`internal_links`. -/
theorem claim1_no_inherited_or_skipped_properties (node : Node) (cls_name : String) :
    dictGet (export_node_to_dict node) "properties" =
      some (HostVal.dict (node_properties_dict node)) ∧
    dictGet (catalog_node_info cls_name node).1 "properties" =
      some (HostVal.list (catalog_properties cls_name node).1) ∧
    (∀ x ∈ (node_properties_dict node).map Prod.fst,
      x ∉ parentProps node.base_props ∧ x ∉ skippedIdents) ∧
    (∀ v ∈ (catalog_properties cls_name node).1, ∃ info,
      v = HostVal.dict info ∧
      ∃ i, dictGet info "identifier" = some (HostVal.str i) ∧
        i ∉ parentProps node.base_props ∧ i ∉ skippedIdents) := by
  refine ⟨?_, ?_, ?_, ?_⟩
  · simp [export_node_to_dict, dictGet]
  · simp [catalog_node_info, dictGet]
  · intro x hx
    rcases mem_keys_node_props_foldl node node.rna_props [] x
        (by simpa [node_properties_dict] using hx) with h | ⟨p, _, rfl, _, hA, hB⟩
    · simp at h
    · exact ⟨not_mem_of_contains_eq_false hA, not_mem_of_contains_eq_false hB⟩
  · intro v hv
    rcases mem_catalog_props_foldl cls_name node node.rna_props ([], []) v
        (by simpa [catalog_properties] using hv) with h | ⟨p, _, info, hok, rfl, hA, hB⟩
    · simp at h
    · exact ⟨info, rfl, p.identifier, get_property_info_ok_head node p info hok,
        not_mem_of_contains_eq_false hA, not_mem_of_contains_eq_false hB⟩

/-- Witness for C1 at a concrete node whose one own property survives into
the document. -/
theorem claim1_witness :
    "my_prop" ∈ (node_properties_dict nodeW).map Prod.fst ∧
    "my_prop" ∉ parentProps nodeW.base_props ∧ "my_prop" ∉ skippedIdents :=
  ⟨by decide,
   (claim1_no_inherited_or_skipped_properties nodeW "ShaderNodeValue").2.2.1
     "my_prop" (by decide)⟩

lemma catalog_foldl_fst_log_free (cls_name : String) (node : Node) :
    ∀ (props : List PropDesc) (acc1 : List HostVal) (log1 log2 : List String),
      (props.foldl (catalog_prop_step cls_name node) (acc1, log1)).1 =
        (props.foldl (catalog_prop_step cls_name node) (acc1, log2)).1
  | [], _, _, _ => rfl
  | p :: ps, acc1, log1, log2 => by
    simp only [List.foldl_cons]
    unfold catalog_prop_step
    split
    next => exact catalog_foldl_fst_log_free cls_name node ps acc1 log1 log2
    next =>
      split
      next => exact catalog_foldl_fst_log_free cls_name node ps acc1 log1 log2
      next =>
        cases hgp : get_property_info node p with
        | ok info =>
          exact catalog_foldl_fst_log_free cls_name node ps
            (acc1 ++ [HostVal.dict info]) log1 log2
        | error e =>
          exact catalog_foldl_fst_log_free cls_name node ps acc1
            (log1 ++ ["Could not get property " ++ p.identifier ++ " for " ++
              cls_name ++ ": " ++ e])
            (log2 ++ ["Could not get property " ++ p.identifier ++ " for " ++
              cls_name ++ ": " ++ e])

lemma catalog_foldl_log_mono (cls_name : String) (node : Node) :
    ∀ (props : List PropDesc) (acc : List HostVal × List String),
      ∃ t, (props.foldl (catalog_prop_step cls_name node) acc).2 = acc.2 ++ t
  | [], acc => ⟨[], (List.append_nil acc.2).symm⟩
  | p :: ps, acc => by
    have hstep : ∃ s, (catalog_prop_step cls_name node acc p) =
        ((catalog_prop_step cls_name node acc p).1, acc.2 ++ s) := by
      unfold catalog_prop_step
      split
      next => exact ⟨[], by simp⟩
      next =>
        split
        next => exact ⟨[], by simp⟩
        next =>
          cases get_property_info node p with
          | ok info => exact ⟨[], by simp⟩
          | error e => exact ⟨["Could not get property " ++ p.identifier ++ " for " ++
              cls_name ++ ": " ++ e], by simp⟩
    obtain ⟨s, hs⟩ := hstep
    obtain ⟨t, ht⟩ := catalog_foldl_log_mono cls_name node ps
      (catalog_prop_step cls_name node acc p)
    exact ⟨s ++ t, by
      rw [List.foldl_cons] at *
      rw [ht, hs]
      simp⟩

/-- C8: a property descriptor whose read raises is the only one omitted —
the remaining descriptors produce exactly the document they would produce
without it, the node document and enclosing export still complete — and
the failure is logged in the catalog path while the material path logs
nothing beyond its file-write message. -/
theorem claim8_property_read_failure_isolated (node : Node) (pre post : List PropDesc)
    (p : PropDesc) (e cls_name : String)
    (hsplit : node.rna_props = pre ++ p :: post)
    (herr : p.raise_msg = some e)
    (hA : (parentProps node.base_props).contains p.identifier = false)
    (hB : skippedIdents.contains p.identifier = false)
    (huniq : ∀ q ∈ pre ++ post, q.identifier ≠ p.identifier) :
    node_properties_dict node = (pre ++ post).foldl (node_prop_step node) [] ∧
    p.identifier ∉ (node_properties_dict node).map Prod.fst ∧
    dictGet (export_node_to_dict node) "properties" =
      some (HostVal.dict (node_properties_dict node)) ∧
    dictGet (export_node_to_dict node) "name" = some (HostVal.str node.name) ∧
    (catalog_properties cls_name node).1 =
      ((pre ++ post).foldl (catalog_prop_step cls_name node) ([], [])).1 ∧
    ("Could not get property " ++ p.identifier ++ " for " ++ cls_name ++ ": " ++ e) ∈
      (catalog_properties cls_name node).2 ∧
    (∀ (bpy : BpyData) (material_name : String) (filepath : Option String)
      (m : Material),
      materials_get bpy material_name = some m → m.use_nodes = true →
      (export_material_nodes_to_json bpy material_name filepath).log =
        (match filepath with
         | some fp => ["Exported material to " ++ fp]
         | Option.none => [])) := by
  have hstep : ∀ acc : Doc, node_prop_step node acc p = acc := by
    intro acc
    simp [node_prop_step, hA, hB, get_property_info, herr]
  have hcstep : ∀ acc : List HostVal × List String,
      catalog_prop_step cls_name node acc p =
        (acc.1, acc.2 ++ ["Could not get property " ++ p.identifier ++ " for " ++
          cls_name ++ ": " ++ e]) := by
    intro acc
    simp [catalog_prop_step, not_mem_of_contains_eq_false hA,
      not_mem_of_contains_eq_false hB, get_property_info, herr]
  have hprops : node_properties_dict node =
      (pre ++ post).foldl (node_prop_step node) [] := by
    unfold node_properties_dict
    rw [hsplit, List.foldl_append, List.foldl_cons, hstep, ← List.foldl_append]
  refine ⟨hprops, ?_, ?_, ?_, ?_, ?_, ?_⟩
  · intro hx
    rcases mem_keys_node_props_foldl node node.rna_props [] p.identifier
        (by simpa [node_properties_dict] using hx)
      with h | ⟨q, hq, hid, ⟨info, hok⟩, _, _⟩
    · simp at h
    · rw [hsplit] at hq
      rcases List.mem_append.mp hq with hq1 | hq2
      · exact huniq q (List.mem_append_left post hq1) hid.symm
      · rcases List.mem_cons.mp hq2 with heq | hq3
        · subst heq
          simp [get_property_info, herr] at hok
        · exact huniq q (List.mem_append_right pre hq3) hid.symm
  · simp [export_node_to_dict, dictGet]
  · simp [export_node_to_dict, dictGet]
  · unfold catalog_properties
    rw [hsplit, List.foldl_append, List.foldl_cons, hcstep]
    have hacc := catalog_foldl_fst_log_free cls_name node post
      ((pre.foldl (catalog_prop_step cls_name node) ([], [])).1)
      ((pre.foldl (catalog_prop_step cls_name node) ([], [])).2 ++
        ["Could not get property " ++ p.identifier ++ " for " ++ cls_name ++ ": " ++ e])
      ((pre.foldl (catalog_prop_step cls_name node) ([], [])).2)
    rw [List.foldl_append]
    exact hacc
  · unfold catalog_properties
    rw [hsplit, List.foldl_append, List.foldl_cons, hcstep]
    obtain ⟨t, ht⟩ := catalog_foldl_log_mono cls_name node post
      ((pre.foldl (catalog_prop_step cls_name node) ([], [])).1,
       (pre.foldl (catalog_prop_step cls_name node) ([], [])).2 ++
         ["Could not get property " ++ p.identifier ++ " for " ++ cls_name ++ ": " ++ e])
    rw [ht]
    simp
  · intro bpy material_name filepath m hm hn
    cases filepath <;> simp [export_material_nodes_to_json, hm, hn]

/-- Witness for C8 at a concrete node whose second descriptor raises. -/
theorem claim8_witness :
    nodeBad.rna_props = [propOk] ++ propBad :: [] ∧
    node_properties_dict nodeBad =
      ([propOk] ++ []).foldl (node_prop_step nodeBad) [] ∧
    "bad_prop" ∉ (node_properties_dict nodeBad).map Prod.fst ∧
    ("Could not get property " ++ "bad_prop" ++ " for " ++ "ShaderNodeValue" ++
        ": " ++ "boom") ∈
      (catalog_properties "ShaderNodeValue" nodeBad).2 := by
  have h := claim8_property_read_failure_isolated nodeBad [propOk] [] propBad
    "boom" "ShaderNodeValue" rfl rfl (by decide) (by decide) (by decide)
  exact ⟨rfl, h.1, h.2.1, h.2.2.2.2.2.1⟩

lemma dictSet_of_fresh_key : ∀ (d : Doc) (k : String) (v : HostVal),
    k ∉ d.map Prod.fst → dictSet d k v = d ++ [(k, v)]
  | [], _, _, _ => rfl
  | (k0, w) :: kvs, k, v, h => by
    have hstep : dictSet ((k0, w) :: kvs) k v =
        if k0 = k then (k, v) :: kvs else (k0, w) :: dictSet kvs k v := rfl
    have hk : k0 ≠ k := by
      intro heq
      exact h (by simp [heq])
    rw [hstep, if_neg hk, dictSet_of_fresh_key kvs k v (fun hm => h (by simp [hm]))]
    simp

/-- The document half of one `catalog_step`, on the enumerated cases of the
candidate's `new_node`. -/
lemma catalog_step_cases (acc : Doc × List String) (c : BpyTypeEntry) :
    (∀ node, c.new_node = Except.ok node →
      catalog_step acc c =
        (dictSet acc.1 c.attr_name (HostVal.dict (catalog_node_info c.attr_name node).1),
         acc.2 ++ (catalog_node_info c.attr_name node).2)) ∧
    (∀ e, c.new_node = Except.error e →
      catalog_step acc c =
        (acc.1, acc.2 ++ ["Could not process " ++ c.attr_name ++ ": " ++ e])) := by
  constructor
  · intro node hnn
    simp [catalog_step, hnn]
  · intro e hnn
    simp [catalog_step, hnn]

lemma catalog_scan_foldl_chars :
    ∀ (cands : List BpyTypeEntry) (acc : Doc × List String),
      (∀ c ∈ cands, c.attr_name ∉ acc.1.map Prod.fst) →
      ((cands.map (fun c => c.attr_name)).Nodup) →
      (cands.foldl catalog_step acc).1 =
        acc.1 ++ cands.filterMap (fun c =>
          match c.new_node with
          | Except.ok node =>
            some (c.attr_name, HostVal.dict (catalog_node_info c.attr_name node).1)
          | Except.error _ => Option.none) ∧
      (cands.foldl catalog_step acc).2 =
        acc.2 ++ (cands.map (fun c =>
          match c.new_node with
          | Except.ok node => (catalog_node_info c.attr_name node).2
          | Except.error e =>
            ["Could not process " ++ c.attr_name ++ ": " ++ e])).flatten
  | [], acc, _, _ => by simp
  | c :: cs, acc, hfresh, hnd => by
    have hndtail : ((cs.map (fun c => c.attr_name)).Nodup) := by
      simp only [List.map_cons, List.nodup_cons] at hnd
      exact hnd.2
    have hheadfresh : c.attr_name ∉ cs.map (fun c => c.attr_name) := by
      simp only [List.map_cons, List.nodup_cons] at hnd
      exact hnd.1
    cases hnn : c.new_node with
    | ok node =>
      have hset := dictSet_of_fresh_key acc.1 c.attr_name
        (HostVal.dict (catalog_node_info c.attr_name node).1)
        (hfresh c (by simp))
      have hstep := (catalog_step_cases acc c).1 node hnn
      have hrec := catalog_scan_foldl_chars cs
        (catalog_step acc c)
        (by
          intro c' hc'
          rw [hstep, hset]
          simp only [List.map_append, List.mem_append]
          rintro (h1 | h2)
          · exact hfresh c' (by simp [hc']) h1
          · simp only [List.map_cons, List.map_nil, List.mem_cons,
              List.not_mem_nil] at h2
            rcases h2 with h2 | h2
            · exact hheadfresh (by
                rw [← h2]
                exact List.mem_map_of_mem (fun c => c.attr_name) hc')
            · exact h2)
        hndtail
      constructor
      · rw [List.foldl_cons, hrec.1, hstep, hset]
        simp [List.filterMap_cons, hnn]
      · rw [List.foldl_cons, hrec.2, hstep]
        simp [hnn]
    | error e =>
      have hstep := (catalog_step_cases acc c).2 e hnn
      have hrec := catalog_scan_foldl_chars cs (catalog_step acc c)
        (by
          intro c' hc'
          rw [hstep]
          exact hfresh c' (by simp [hc']))
        hndtail
      constructor
      · rw [List.foldl_cons, hrec.1, hstep]
        simp [List.filterMap_cons, hnn]
      · rw [List.foldl_cons, hrec.2, hstep]
        simp [hnn]

lemma map_fst_filterMap_catalog :
    ∀ l : List BpyTypeEntry,
      (l.filterMap (fun c =>
        match c.new_node with
        | Except.ok node =>
          some (c.attr_name, HostVal.dict (catalog_node_info c.attr_name node).1)
        | Except.error _ => Option.none)).map Prod.fst =
      (l.filter candidate_ok).map (fun c => c.attr_name)
  | [] => rfl
  | c :: cs => by
    cases hnn : c.new_node with
    | ok node =>
      simp [List.filterMap_cons, List.filter_cons, candidate_ok, hnn,
        map_fst_filterMap_catalog cs]
    | error e =>
      simp [List.filterMap_cons, List.filter_cons, candidate_ok, hnn,
        map_fst_filterMap_catalog cs]

instance : IsTotal BpyTypeEntry (fun a b => a.attr_name ≤ b.attr_name) :=
  ⟨fun a b => le_total a.attr_name b.attr_name⟩

instance : IsTrans BpyTypeEntry (fun a b => a.attr_name ≤ b.attr_name) :=
  ⟨fun _ _ _ h1 h2 => le_trans h1 h2⟩

/-- C6: over `N` candidate types the catalog gains at most `N` entries,
recorded in ascending class-name order, and a candidate whose
instantiation raises is logged with "Could not process ..." and skipped
while every other candidate is still processed (the keys are exactly the
successful candidates in sorted order). -/
theorem claim6_catalog_walk (bpy : BpyData) (filepath : Option String)
    (hnd : ((shader_node_candidates bpy).map (fun c => c.attr_name)).Nodup) :
    dictGet (generate_master_shader_nodes_json bpy filepath).result "shader_nodes" =
      some (HostVal.dict (catalog_scan (sorted_candidates bpy)).1) ∧
    ((catalog_scan (sorted_candidates bpy)).1).map Prod.fst =
      ((sorted_candidates bpy).filter candidate_ok).map (fun c => c.attr_name) ∧
    ((catalog_scan (sorted_candidates bpy)).1).length ≤
      (shader_node_candidates bpy).length ∧
    List.Sorted (· ≤ ·) (((catalog_scan (sorted_candidates bpy)).1).map Prod.fst) ∧
    (∀ c ∈ shader_node_candidates bpy, ∀ e, c.new_node = Except.error e →
      ("Could not process " ++ c.attr_name ++ ": " ++ e) ∈
          (generate_master_shader_nodes_json bpy filepath).log ∧
        c.attr_name ∉ ((catalog_scan (sorted_candidates bpy)).1).map Prod.fst) := by
  have hperm : (sorted_candidates bpy).Perm (shader_node_candidates bpy) :=
    List.perm_insertionSort _ _
  have hndsorted : (((sorted_candidates bpy).map (fun c => c.attr_name)).Nodup) :=
    ((hperm.map (fun c => c.attr_name)).nodup_iff).mpr hnd
  have hchars := catalog_scan_foldl_chars (sorted_candidates bpy) ([], [])
    (by simp) hndsorted
  have hkeys : ((catalog_scan (sorted_candidates bpy)).1).map Prod.fst =
      ((sorted_candidates bpy).filter candidate_ok).map (fun c => c.attr_name) := by
    unfold catalog_scan
    rw [hchars.1]
    simp [map_fst_filterMap_catalog]
  have hsorted0 : List.Sorted (fun a b : BpyTypeEntry => a.attr_name ≤ b.attr_name)
      (sorted_candidates bpy) := List.sorted_insertionSort _ _
  refine ⟨?_, hkeys, ?_, ?_, ?_⟩
  · cases filepath <;> simp [generate_master_shader_nodes_json, dictGet]
  · have h1 : ((catalog_scan (sorted_candidates bpy)).1).length =
        (((catalog_scan (sorted_candidates bpy)).1).map Prod.fst).length :=
      (List.length_map _ _).symm
    rw [h1, hkeys, List.length_map]
    calc ((sorted_candidates bpy).filter candidate_ok).length
        ≤ (sorted_candidates bpy).length := List.length_filter_le _ _
      _ = (shader_node_candidates bpy).length := hperm.length_eq
  · rw [hkeys]
    exact List.pairwise_map.mpr
      (List.Pairwise.sublist (List.filter_sublist _) hsorted0)
  · intro c hc e hnn
    have hcmem : c ∈ sorted_candidates bpy := hperm.mem_iff.mpr hc
    have hmsg : ("Could not process " ++ c.attr_name ++ ": " ++ e) ∈
        (catalog_scan (sorted_candidates bpy)).2 := by
      unfold catalog_scan
      rw [hchars.2]
      simp only [List.nil_append]
      refine List.mem_flatten.mpr
        ⟨["Could not process " ++ c.attr_name ++ ": " ++ e], ?_, by simp⟩
      have hm := List.mem_map_of_mem (fun c : BpyTypeEntry =>
        match c.new_node with
        | Except.ok node => (catalog_node_info c.attr_name node).2
        | Except.error e => ["Could not process " ++ c.attr_name ++ ": " ++ e]) hcmem
      simpa [hnn] using hm
    constructor
    · cases filepath with
      | none =>
        simp only [generate_master_shader_nodes_json]
        exact List.mem_append_right _ hmsg
      | some fp =>
        simp only [generate_master_shader_nodes_json]
        exact List.mem_append_left _ (List.mem_append_right _ hmsg)
    · rw [hkeys]
      intro hmem
      obtain ⟨c', hc'f, hname⟩ := List.mem_map.mp hmem
      have hc'mem : c' ∈ sorted_candidates bpy := (List.mem_filter.mp hc'f).1
      have hok : candidate_ok c' = true := (List.mem_filter.mp hc'f).2
      have hcc : c' = c := List.inj_on_of_nodup_map hndsorted hc'mem hcmem hname
      rw [hcc] at hok
      simp [candidate_ok, hnn] at hok

/-- Witness for C6 at a concrete host state with two candidates, one of
which fails to instantiate. -/
theorem claim6_witness :
    ((shader_node_candidates bpySample).map (fun c => c.attr_name)).Nodup ∧
    ((catalog_scan (sorted_candidates bpySample)).1).map Prod.fst =
      ((sorted_candidates bpySample).filter candidate_ok).map (fun c => c.attr_name) ∧
    ((catalog_scan (sorted_candidates bpySample)).1).length ≤
      (shader_node_candidates bpySample).length := by
  have h := claim6_catalog_walk bpySample Option.none (by decide)
  exact ⟨by decide, h.2.1, h.2.2.1⟩
